import Mathlib

/-!
# Verification of the cvec-db manifest builder

A shallow embedding of `create_manifest` and the `manifest` subcommand from
`src/cvec_db/cli.py`, together with proofs of the specified properties.

Bytes are modelled as `Nat` (each `< 256`), 32-bit words as `Nat` reduced
modulo `2 ^ 32` at every operation. The SHA-256 function (the semantics of
Python's `hashlib.sha256`, per FIPS 180-4) is implemented executably so that
concrete digests can be evaluated inside Lean.
-/

namespace CvecDb

/-- Reduce to a 32-bit word. -/
def w32 (n : Nat) : Nat := n % 4294967296

/-- 32-bit right rotation. -/
def rotr32 (n x : Nat) : Nat := w32 ((x >>> n) ||| (x <<< (32 - n)))

/-- 32-bit bitwise complement. -/
def not32 (x : Nat) : Nat := 4294967295 ^^^ (w32 x)

/-- SHA-256 `Ch` function. -/
def ch32 (x y z : Nat) : Nat := (x &&& y) ^^^ ((not32 x) &&& z)

/-- SHA-256 `Maj` function. -/
def maj32 (x y z : Nat) : Nat := (x &&& y) ^^^ (x &&& z) ^^^ (y &&& z)

/-- SHA-256 big sigma 0. -/
def bsig0 (x : Nat) : Nat := (rotr32 2 x) ^^^ (rotr32 13 x) ^^^ (rotr32 22 x)

/-- SHA-256 big sigma 1. -/
def bsig1 (x : Nat) : Nat := (rotr32 6 x) ^^^ (rotr32 11 x) ^^^ (rotr32 25 x)

/-- SHA-256 small sigma 0. -/
def ssig0 (x : Nat) : Nat := (rotr32 7 x) ^^^ (rotr32 18 x) ^^^ (x >>> 3)

/-- SHA-256 small sigma 1. -/
def ssig1 (x : Nat) : Nat := (rotr32 17 x) ^^^ (rotr32 19 x) ^^^ (x >>> 10)

/-- The 64 SHA-256 round constants. -/
def sha256K : List Nat :=
  [1116352408, 1899447441, 3049323471, 3921009573, 961987163, 1508970993,
   2453635748, 2870763221, 3624381080, 310598401, 607225278, 1426881987,
   1925078388, 2162078206, 2614888103, 3248222580, 3835390401, 4022224774,
   264347078, 604807628, 770255983, 1249150122, 1555081692, 1996064986,
   2554220882, 2821834349, 2952996808, 3210313671, 3336571891, 3584528711,
   113926993, 338241895, 666307205, 773529912, 1294757372, 1396182291,
   1695183700, 1986661051, 2177026350, 2456956037, 2730485921, 2820302411,
   3259730800, 3345764771, 3516065817, 3600352804, 4094571909, 275423344,
   430227734, 506948616, 659060556, 883997877, 958139571, 1322822218,
   1537002063, 1747873779, 1955562222, 2024104815, 2227730452, 2361852424,
   2428436474, 2756734187, 3204031479, 3329325298]

/-- The eight 32-bit words of a SHA-256 hash state. -/
structure Sha256State where
  a : Nat
  b : Nat
  c : Nat
  d : Nat
  e : Nat
  f : Nat
  g : Nat
  h : Nat
deriving Repr, DecidableEq

/-- SHA-256 initial hash value. -/
def sha256H0 : Sha256State :=
  ⟨1779033703, 3144134277, 1013904242, 2773480762,
   1359893119, 2600822924, 528734635, 1541459225⟩

/-- One SHA-256 compression round with precombined constant-plus-schedule word. -/
def sha256Round (st : Sha256State) (kw : Nat) : Sha256State :=
  let t1 := w32 (st.h + bsig1 st.e + ch32 st.e st.f st.g + kw)
  let t2 := w32 (bsig0 st.a + maj32 st.a st.b st.c)
  ⟨w32 (t1 + t2), st.a, st.b, st.c, w32 (st.d + t1), st.e, st.f, st.g⟩

/-- Extend a 16-word message block, appending `r` further schedule words. -/
def sha256Extend (w : List Nat) : Nat → List Nat
  | 0 => w
  | r + 1 =>
      let n := w.length
      let nw := w32 (ssig1 (w.getD (n - 2) 0) + w.getD (n - 7) 0 +
                     ssig0 (w.getD (n - 15) 0) + w.getD (n - 16) 0)
      sha256Extend (w ++ [nw]) r

/-- Fuel-driven worker for `chunksOf`; the fuel only needs to dominate the
list length, which keeps the recursion structural (hence kernel-reducible). -/
def chunksOfAux (n : Nat) : Nat → List α → List (List α)
  | 0, _ => []
  | _ + 1, [] => []
  | fuel + 1, x :: xs => (x :: xs.take (n - 1)) :: chunksOfAux n fuel (xs.drop (n - 1))

/-- Split a list into consecutive chunks; every chunk but the last has
`max n 1` elements (for `n ≥ 1`, exactly `n`). -/
def chunksOf (n : Nat) (l : List α) : List (List α) := chunksOfAux n l.length l

/-- Big-endian 4-byte groups to 32-bit words. -/
def bytesToWords (bs : List Nat) : List Nat :=
  (chunksOf 4 bs).map fun b =>
    (b.getD 0 0) * 16777216 + (b.getD 1 0) * 65536 + (b.getD 2 0) * 256 + b.getD 3 0

/-- SHA-256 message padding: append `0x80`, zeros to 56 mod 64, then the
64-bit big-endian bit length. -/
def sha256Pad (msg : List Nat) : List Nat :=
  let l := msg.length
  let zeros := (120 - (l + 1) % 64) % 64
  let bits := 8 * l
  msg ++ [0x80] ++ List.replicate zeros 0 ++
    [(bits >>> 56) % 256, (bits >>> 48) % 256, (bits >>> 40) % 256,
     (bits >>> 32) % 256, (bits >>> 24) % 256, (bits >>> 16) % 256,
     (bits >>> 8) % 256, bits % 256]

/-- Compress one 16-word block into the hash state. -/
def sha256Block (h0 : Sha256State) (blk : List Nat) : Sha256State :=
  let w := sha256Extend blk 48
  let kw := List.zipWith (fun k wi => w32 (k + wi)) sha256K w
  let st := kw.foldl sha256Round h0
  ⟨w32 (h0.a + st.a), w32 (h0.b + st.b), w32 (h0.c + st.c), w32 (h0.d + st.d),
   w32 (h0.e + st.e), w32 (h0.f + st.f), w32 (h0.g + st.g), w32 (h0.h + st.h)⟩

/-- SHA-256 of a byte string, as the final eight-word state. -/
def sha256Run (msg : List Nat) : Sha256State :=
  ((chunksOf 64 (sha256Pad msg)).map bytesToWords).foldl sha256Block sha256H0

/-- The sixteen lowercase hexadecimal digit characters. -/
def hexChars : List Char := ("0123456789abcdef").data

/-- Lowercase hexadecimal digit of `n % 16`. -/
def hexDigit (n : Nat) : Char := hexChars.getD (n % 16) '0'

/-- A 32-bit word as eight lowercase hexadecimal characters, big-endian. -/
def hexWord32 (x : Nat) : List Char :=
  [hexDigit (x >>> 28), hexDigit (x >>> 24), hexDigit (x >>> 20), hexDigit (x >>> 16),
   hexDigit (x >>> 12), hexDigit (x >>> 8), hexDigit (x >>> 4), hexDigit x]

/-- The words of a hash state, in output order. -/
def digestWords (st : Sha256State) : List Nat :=
  [st.a, st.b, st.c, st.d, st.e, st.f, st.g, st.h]

/-- The SHA-256 hex digest of a byte string: the semantics of
`hashlib.sha256(data).hexdigest()`. -/
def sha256hex (msg : List Nat) : String :=
  ⟨((digestWords (sha256Run msg)).map hexWord32).flatten⟩

/-! ## Filesystem model

A directory is a finite association list from entry name to node; a node is a
regular file (its byte contents, its `stat` size, and whether it can be opened
for reading) or a subdirectory. The `readable` flag models the file becoming
unreadable before the hashing loop opens it (permission error, concurrent
deletion); `statSize` is kept separate from the byte contents because the code
takes `size` from `stat` metadata, not from the hashed bytes. -/

/-- A regular file as the code observes it. -/
structure FileNode where
  content : List Nat
  statSize : Nat
  readable : Bool

/-- A directory entry's node: a regular file or a subdirectory. -/
inductive Node where
  | file : FileNode → Node
  | dir : List (String × Node) → Node

/-- A directory: an association list from entry name to node. -/
abbrev Dir := List (String × Node)

/-- The node an entry name resolves to, if present. -/
def lookupNode (d : Dir) (nm : String) : Option Node :=
  match d with
  | [] => none
  | e :: es => if e.1 = nm then some e.2 else lookupNode es nm

/-- Whether the directory has an entry of the given name. -/
def hasEntry (d : Dir) (nm : String) : Bool :=
  match d with
  | [] => false
  | e :: es => if e.1 = nm then true else hasEntry es nm

/-- `Path.write_text` semantics on a directory: replace the contents of the
entry `nm` if it exists, create it otherwise. -/
def writeEntry (d : Dir) (nm : String) (c : List Nat) : Dir :=
  if hasEntry d nm then
    d.map (fun e => if e.1 = nm then (e.1, Node.file ⟨c, c.length, true⟩) else e)
  else
    d ++ [(nm, Node.file ⟨c, c.length, true⟩)]

/-- What `output_dir.glob("*.parquet")` matches: pathlib translates the
pattern through `fnmatch`, where `*` matches any run of characters (a leading
dot included), so a name matches exactly when it ends in `.parquet`. -/
def matchesGlobParquet (nm : String) : Bool :=
  List.isSuffixOf (".parquet".data) nm.data

/-- The directory entries `glob("*.parquet")` yields (in directory order,
before sorting). Matching is non-recursive: only immediate entries. -/
def globParquet (d : Dir) : List (String × Node) :=
  d.filter (fun e => matchesGlobParquet e.1)

/-! ## Python string ordering and `sorted` -/

/-- Python's `<=` on strings: lexicographic comparison by code point. -/
def pyCharsLe : List Char → List Char → Bool
  | [], _ => true
  | _ :: _, [] => false
  | a :: as, b :: bs =>
      if a.toNat < b.toNat then true
      else if b.toNat < a.toNat then false
      else pyCharsLe as bs

/-- Python's `<=` on strings, by code point. -/
def pyStrLe (a b : String) : Bool := pyCharsLe a.data b.data

/-- `sorted(...)` key order on the globbed paths: all share the parent
directory, so Python's path comparison reduces to comparing the names. -/
def pyPathRel (a b : String × Node) : Prop := pyStrLe a.1 b.1 = true

instance : DecidableRel pyPathRel := fun a b => instDecidableEqBool (pyStrLe a.1 b.1) true

/-- The model of `sorted(output_dir.glob("*.parquet"))`: a comparison sort by
name. Directory entry names are unique, so Python's stable sort and this
insertion sort agree. -/
def sortPaths (l : List (String × Node)) : List (String × Node) :=
  List.insertionSort pyPathRel l

/-- The matched entries in the order the hashing loop visits them. -/
def sortedMatches (d : Dir) : List (String × Node) := sortPaths (globParquet d)

/-! ## Manifest record and JSON serialization -/

/-- One element of the manifest's `files` array. -/
structure FileEntry where
  name : String
  size : Nat
  sha256 : String
deriving Repr, DecidableEq

/-- A scalar JSON value, the shape of the pass-through `stats` values. -/
inductive JScalar where
  | jnum : Int → JScalar
  | jstr : String → JScalar
  | jbool : Bool → JScalar
  | jnull : JScalar
deriving Repr, DecidableEq

/-- The `stats` mapping: insertion-ordered string keys to scalar values. -/
abbrev Stats := List (String × JScalar)

/-- The manifest record assembled by `create_manifest`, field for field. -/
structure Manifest where
  schema_version : Nat
  generated_at : String
  cvec_db_version : String
  stats : Stats
  files : List FileEntry

/-- Modelled from the spec: `MANIFEST_SCHEMA_VERSION` is imported from the
`cvec_db` package root, which is not among the given files; the spec fixes it
as an integer compatibility tag, constant across calls. The claims depend
only on it being a fixed constant, not on its value. -/
def MANIFEST_SCHEMA_VERSION : Nat := 1

/-- Lowercase hexadecimal, four digits — Python's `\uXXXX` escape payload. -/
def hex4 (n : Nat) : List Char :=
  [hexDigit (n >>> 12), hexDigit (n >>> 8), hexDigit (n >>> 4), hexDigit n]

/-- Escape one character as Python's `json.dumps` does with the default
`ensure_ascii=True`: short escapes for the common controls, `\uXXXX` for
other characters outside `0x20`–`0x7e` (surrogate pairs above `0xffff`). -/
def pyJsonEscapeChar (c : Char) : List Char :=
  let n := c.toNat
  if c = '"' then ['\\', '"']
  else if c = '\\' then ['\\', '\\']
  else if c = '\n' then ['\\', 'n']
  else if c = '\t' then ['\\', 't']
  else if c = '\r' then ['\\', 'r']
  else if n = 8 then ['\\', 'b']
  else if n = 12 then ['\\', 'f']
  else if n < 32 || n > 126 then
    if n < 65536 then '\\' :: 'u' :: hex4 n
    else
      let m := n - 65536
      ('\\' :: 'u' :: hex4 (55296 + (m >>> 10))) ++ ('\\' :: 'u' :: hex4 (56320 + (m &&& 1023)))
  else [c]

/-- A JSON string literal as `json.dumps` renders it. -/
def jsonQuote (s : String) : String :=
  ⟨'"' :: (s.data.map pyJsonEscapeChar).flatten ++ ['"']⟩

/-- `indent=2` indentation at nesting level `lvl`. -/
def ind (lvl : Nat) : String := ⟨List.replicate (2 * lvl) ' '⟩

/-- Concatenate with a separator between elements. -/
def joinSep (sep : String) : List String → String
  | [] => ""
  | [x] => x
  | x :: y :: ys => x ++ sep ++ joinSep sep (y :: ys)

/-- A JSON object with already-serialized member values, as
`json.dumps(..., indent=2)` lays it out at nesting level `lvl`. -/
def dumpObj (lvl : Nat) (kvs : List (String × String)) : String :=
  match kvs with
  | [] => "\x7b\x7d"
  | _ =>
      "\x7b\n" ++
        joinSep ",\n" (kvs.map (fun kv => ind (lvl + 1) ++ jsonQuote kv.1 ++ ": " ++ kv.2)) ++
        "\n" ++ ind lvl ++ "\x7d"

/-- A JSON array with already-serialized elements, `indent=2` layout. -/
def dumpArr (lvl : Nat) (xs : List String) : String :=
  match xs with
  | [] => "[]"
  | _ =>
      "[\n" ++ joinSep ",\n" (xs.map (fun x => ind (lvl + 1) ++ x)) ++
        "\n" ++ ind lvl ++ "]"

/-- A scalar as `json.dumps` renders it. -/
def dumpScalar : JScalar → String
  | .jnum n => toString n
  | .jstr s => jsonQuote s
  | .jbool b => if b then "true" else "false"
  | .jnull => "null"

/-- One `files` element as serialized inside the manifest. -/
def dumpFileEntry (lvl : Nat) (fe : FileEntry) : String :=
  dumpObj lvl
    [("name", jsonQuote fe.name), ("size", toString fe.size), ("sha256", jsonQuote fe.sha256)]

/-- The manifest's top-level members, in the insertion order of the Python
dict literal, each value already serialized at nesting level 1. -/
def manifestKVs (m : Manifest) : List (String × String) :=
  [("schema_version", toString m.schema_version),
   ("generated_at", jsonQuote m.generated_at),
   ("cvec_db_version", jsonQuote m.cvec_db_version),
   ("stats", dumpObj 1 (m.stats.map (fun kv => (kv.1, dumpScalar kv.2)))),
   ("files", dumpArr 1 (m.files.map (dumpFileEntry 2)))]

/-- `json.dumps(manifest, indent=2)` on the manifest record. -/
def pyJsonDumpsManifest (m : Manifest) : String := dumpObj 0 (manifestKVs m)

/-- UTF-8 encoding of one character, as Python's `str.encode()` produces. -/
def utf8Char (c : Char) : List Nat :=
  let n := c.toNat
  if n < 128 then [n]
  else if n < 2048 then [192 ||| (n >>> 6), 128 ||| (n &&& 63)]
  else if n < 65536 then [224 ||| (n >>> 12), 128 ||| ((n >>> 6) &&& 63), 128 ||| (n &&& 63)]
  else [240 ||| (n >>> 18), 128 ||| ((n >>> 12) &&& 63), 128 ||| ((n >>> 6) &&& 63),
        128 ||| (n &&& 63)]

/-- UTF-8 bytes of a string (`write_text` uses UTF-8 by default). -/
def strBytes (s : String) : List Nat := (s.data.map utf8Char).flatten

/-! ## Timestamps -/

/-- The observable fields of `datetime.now(timezone.utc)`. -/
structure PyDatetime where
  year : Nat
  month : Nat
  day : Nat
  hour : Nat
  minute : Nat
  second : Nat
  microsecond : Nat

/-- Zero-pad a decimal rendering to `w` digits. -/
def padNum (w n : Nat) : String :=
  let s := toString n
  ⟨List.replicate (w - s.length) '0'⟩ ++ s

/-- The date-and-time part of `isoformat()`: date and time separated by `T`,
microseconds omitted when zero. -/
def isoCore (t : PyDatetime) : String :=
  padNum 4 t.year ++ "-" ++ padNum 2 t.month ++ "-" ++ padNum 2 t.day ++ "T" ++
    padNum 2 t.hour ++ ":" ++ padNum 2 t.minute ++ ":" ++ padNum 2 t.second ++
    (if t.microsecond = 0 then "" else "." ++ padNum 6 t.microsecond)

/-- `datetime.isoformat()` on an aware UTC datetime: the date-and-time part
followed by the `+00:00` offset designator. -/
def isoformatUTC (t : PyDatetime) : String := isoCore t ++ "+00:00"

/-! ## The manifest builder -/

/-- The exceptions the builder can raise. -/
inductive PyErr where
  | fileNotFound : String → PyErr
  | permissionError : String → PyErr
  | isADirectoryError : String → PyErr
deriving Repr, DecidableEq

/-- The chunks `iter(lambda: f.read(8192), b"")` yields for a file whose
bytes are `content`: consecutive 8192-byte slices, the last one shorter. -/
def readChunks8192 (content : List Nat) : List (List Nat) := chunksOf 8192 content

/-- The digest a `hashlib.sha256()` accumulator reports after `update` has
been called on each chunk in order: by the library's contract, the SHA-256
hex digest of the concatenation of all the chunks. -/
def hashlibDigestOfUpdates (chunks : List (List Nat)) : String :=
  sha256hex chunks.flatten

/-- The body of the hashing loop for one globbed entry: open it (failing on a
subdirectory or an unreadable file), stream it through SHA-256 in 8192-byte
chunks, and record name, `stat` size, and hex digest. -/
def hashEntry : String × Node → Except PyErr FileEntry
  | (nm, Node.dir _) => .error (.isADirectoryError nm)
  | (nm, Node.file f) =>
      if f.readable then
        .ok ⟨nm, f.statSize, hashlibDigestOfUpdates (readChunks8192 f.content)⟩
      else
        .error (.permissionError nm)

/-- The `for pq_file in sorted(...)` loop: process entries left to right,
appending a `FileEntry` per file, and propagate the first exception raised,
abandoning the loop there. -/
def hashLoop : List (String × Node) → Except PyErr (List FileEntry)
  | [] => .ok []
  | e :: es =>
      match hashEntry e with
      | .error err => .error err
      | .ok fe =>
          match hashLoop es with
          | .error err => .error err
          | .ok fes => .ok (fe :: fes)

/-- `create_manifest(output_dir, stats)`. The filesystem argument is the
state of `output_dir` (`none` when the directory does not exist — `glob` on a
missing directory yields nothing, and the final `write_text` then fails with
a not-found error because the parent directory is missing). On success the
result carries the manifest record, the directory state after the write, and
the returned path. `now` is the value `datetime.now(timezone.utc)` observes. -/
def createManifest (outputDir : String) (fs : Option Dir) (stats : Stats)
    (now : PyDatetime) : Except PyErr (Manifest × Dir × String) :=
  let d := match fs with | none => [] | some d => d
  match hashLoop (sortedMatches d) with
  | .error err => .error err
  | .ok files =>
      let m : Manifest :=
        ⟨MANIFEST_SCHEMA_VERSION, isoformatUTC now, "0.1.0", stats, files⟩
      match fs with
      | none => .error (.fileNotFound (outputDir ++ "/manifest.json"))
      | some d =>
          .ok (m, writeEntry d "manifest.json" (strBytes (pyJsonDumpsManifest m)),
               outputDir ++ "/manifest.json")

/-- The directory state after a call to `create_manifest`: the function's
only write is the final `write_text`, so on any error the filesystem is
untouched. -/
def finalFs (outputDir : String) (fs : Option Dir) (stats : Stats)
    (now : PyDatetime) : Option Dir :=
  match createManifest outputDir fs stats now with
  | .ok (_, d', _) => some d'
  | .error _ => fs

/-- Whether a call succeeded. -/
def isOkB (r : Except PyErr (Manifest × Dir × String)) : Bool :=
  match r with | .ok _ => true | .error _ => false

/-- The manifest record of a successful call (a dummy on error). -/
def manifestOf (r : Except PyErr (Manifest × Dir × String)) : Manifest :=
  match r with | .ok (m, _, _) => m | .error _ => ⟨0, "", "", [], []⟩

/-- The `files` array of a successful call. -/
def filesList (r : Except PyErr (Manifest × Dir × String)) : List FileEntry :=
  (manifestOf r).files

/-- The directory state of a successful call. -/
def dirOf (r : Except PyErr (Manifest × Dir × String)) : Dir :=
  match r with | .ok (_, d', _) => d' | .error _ => []

/-- The path a successful call returns. -/
def pathOf (r : Except PyErr (Manifest × Dir × String)) : String :=
  match r with | .ok (_, _, p) => p | .error _ => ""

/-! ## The `manifest` subcommand -/

/-- The observable outcome of running the `manifest` subcommand. -/
structure CmdOutcome where
  exitCode : Nat
  errMessages : List String
  calledCreateManifest : Bool
  fsAfter : Option Dir

/-- The `manifest` subcommand on data directory `dataDir` in state `fs`.
If the directory does not exist it prints an error naming the directory and
exits with status 1 before `create_manifest` is ever reached. Otherwise it
recovers a `cves` count when `cves.parquet` exists (`cvesCount` — modelled
from the spec: the row count is produced by an external `polars` read, an
operation outside the given files) and invokes `create_manifest`; an
uncaught exception from it terminates the process with a nonzero status. -/
def manifestCmd (dataDir : String) (fs : Option Dir) (cvesCount : Nat)
    (now : PyDatetime) : CmdOutcome :=
  match fs with
  | none =>
      ⟨1, ["Error: Directory " ++ dataDir ++ " does not exist"], false, none⟩
  | some d =>
      let stats : Stats :=
        if hasEntry d "cves.parquet" then
          [("cves", .jnum (Int.ofNat cvesCount))]
        else []
      match createManifest dataDir (some d) stats now with
      | .ok (_, d', _) => ⟨0, [], true, some d'⟩
      | .error _ => ⟨1, [], true, some d⟩

/-! ## Order facts for the sort -/

theorem pyCharsLe_total : ∀ a b : List Char, pyCharsLe a b = true ∨ pyCharsLe b a = true
  | [], _ => Or.inl rfl
  | _ :: _, [] => Or.inr rfl
  | a :: as, b :: bs => by
      by_cases h1 : a.toNat < b.toNat
      · exact Or.inl (by simp [pyCharsLe, h1])
      · by_cases h2 : b.toNat < a.toNat
        · exact Or.inr (by simp [pyCharsLe, h2])
        · rcases pyCharsLe_total as bs with h | h
          · exact Or.inl (by simp [pyCharsLe, h1, h2, h])
          · exact Or.inr (by simp [pyCharsLe, h1, h2, h])

theorem pyCharsLe_trans : ∀ a b c : List Char,
    pyCharsLe a b = true → pyCharsLe b c = true → pyCharsLe a c = true
  | [], _, _, _, _ => rfl
  | _ :: _, [], _, h1, _ => by simp [pyCharsLe] at h1
  | _ :: _, _ :: _, [], _, h2 => by simp [pyCharsLe] at h2
  | a :: as, b :: bs, c :: cs, h1, h2 => by
      simp only [pyCharsLe] at h1 h2 ⊢
      by_cases hba : b.toNat < a.toNat
      · simp [hba, if_neg (by omega : ¬ a.toNat < b.toNat)] at h1
      · by_cases hcb : c.toNat < b.toNat
        · simp [hcb, if_neg (by omega : ¬ b.toNat < c.toNat)] at h2
        · by_cases hac : a.toNat < c.toNat
          · simp [hac]
          · have h3 : ¬ a.toNat < b.toNat := by omega
            have h4 : ¬ b.toNat < c.toNat := by omega
            have h5 : ¬ c.toNat < a.toNat := by omega
            simp [h3, hba, if_neg hba] at h1
            simp [h4, hcb, if_neg hcb] at h2
            simp [hac, h5, if_neg h5]
            exact pyCharsLe_trans as bs cs h1 h2

instance : IsTotal (String × Node) pyPathRel :=
  ⟨fun a b => pyCharsLe_total a.1.data b.1.data⟩

instance : IsTrans (String × Node) pyPathRel :=
  ⟨fun _ _ _ h1 h2 => pyCharsLe_trans _ _ _ h1 h2⟩

/-! ## Streaming in chunks reconstructs the exact bytes -/

theorem chunksOfAux_flatten (n : Nat) :
    ∀ (fuel : Nat) (l : List α), l.length ≤ fuel → (chunksOfAux n fuel l).flatten = l
  | 0, [], _ => rfl
  | 0, _ :: _, h => by simp at h
  | _ + 1, [], _ => rfl
  | fuel + 1, x :: xs, h => by
      simp only [chunksOfAux, List.flatten_cons]
      rw [chunksOfAux_flatten n fuel (xs.drop (n - 1)) (by simp at h ⊢; omega)]
      simp [List.take_append_drop]

theorem chunksOf_flatten (n : Nat) (l : List α) : (chunksOf n l).flatten = l :=
  chunksOfAux_flatten n l.length l le_rfl

/-- The streamed digest of the 8192-byte read loop is the digest of the
file's exact bytes. -/
theorem streamed_digest_eq (c : List Nat) :
    hashlibDigestOfUpdates (readChunks8192 c) = sha256hex c := by
  unfold hashlibDigestOfUpdates readChunks8192
  rw [chunksOf_flatten]

/-! ## The digest is a 64-character lowercase hex string -/

theorem hexDigit_mem (n : Nat) : hexDigit n ∈ hexChars := by
  unfold hexDigit
  have h : n % 16 < hexChars.length := by
    have : n % 16 < 16 := Nat.mod_lt _ (by omega)
    simpa [hexChars]
  rw [List.getD_eq_getElem _ _ h]
  exact List.getElem_mem h

theorem sha256hex_length (msg : List Nat) : (sha256hex msg).length = 64 := by
  simp [sha256hex, String.length, digestWords, hexWord32]

theorem sha256hex_chars (msg : List Nat) : ∀ c ∈ (sha256hex msg).data, c ∈ hexChars := by
  intro c hc
  simp only [sha256hex, digestWords, hexWord32, List.map_cons, List.map_nil,
    List.flatten_cons, List.flatten_nil, List.append_nil, List.mem_append,
    List.mem_cons, List.not_mem_nil, or_false] at hc
  rcases hc with h | h | h | h | h | h | h | h <;>
    rcases h with h | h | h | h | h | h | h | h <;>
    (subst h; exact hexDigit_mem _)

/-! ## Facts about the hashing loop -/

/-- A node the hashing loop fails on: a subdirectory, or a file that cannot
be opened. -/
def nodeUnreadable : Node → Bool
  | .file f => !f.readable
  | .dir _ => true

theorem hashEntry_ok {e : String × Node} {fe : FileEntry} (h : hashEntry e = .ok fe) :
    ∃ f : FileNode, e.2 = Node.file f ∧ f.readable = true ∧
      fe = ⟨e.1, f.statSize, hashlibDigestOfUpdates (readChunks8192 f.content)⟩ := by
  obtain ⟨nm, nd⟩ := e
  cases nd with
  | dir ds => simp [hashEntry] at h
  | file f =>
      by_cases hr : f.readable <;> simp [hashEntry, hr] at h
      exact ⟨f, rfl, hr, h.symm⟩

theorem hashEntry_error {e : String × Node} (h : nodeUnreadable e.2 = true) :
    ∃ err, hashEntry e = .error err := by
  obtain ⟨nm, nd⟩ := e
  cases nd with
  | dir ds => exact ⟨.isADirectoryError nm, rfl⟩
  | file f =>
      simp [nodeUnreadable] at h
      exact ⟨.permissionError nm, by simp [hashEntry, h]⟩

theorem hashLoop_ok_mem :
    ∀ {l : List (String × Node)} {fes : List FileEntry}, hashLoop l = .ok fes →
      ∀ fe ∈ fes, ∃ e ∈ l, hashEntry e = .ok fe := by
  intro l
  induction l with
  | nil => intro fes h fe hfe; simp [hashLoop] at h; subst h; simp at hfe
  | cons e es ih =>
      intro fes h fe hfe
      simp only [hashLoop] at h
      cases he : hashEntry e with
      | error err => rw [he] at h; exact absurd h (by simp)
      | ok fe0 =>
          rw [he] at h
          cases hl : hashLoop es with
          | error err => rw [hl] at h; exact absurd h (by simp)
          | ok fes0 =>
              rw [hl] at h
              injection h with h
              subst h
              rcases List.mem_cons.mp hfe with hfe | hfe
              · exact ⟨e, List.mem_cons_self e es, by rw [he, hfe]⟩
              · obtain ⟨e', he', hok⟩ := ih hl fe hfe
                exact ⟨e', List.mem_cons_of_mem _ he', hok⟩

theorem hashLoop_ok_names :
    ∀ {l : List (String × Node)} {fes : List FileEntry}, hashLoop l = .ok fes →
      fes.map FileEntry.name = l.map Prod.fst := by
  intro l
  induction l with
  | nil => intro fes h; simp [hashLoop] at h; subst h; rfl
  | cons e es ih =>
      intro fes h
      simp only [hashLoop] at h
      cases he : hashEntry e with
      | error err => rw [he] at h; exact absurd h (by simp)
      | ok fe0 =>
          rw [he] at h
          cases hl : hashLoop es with
          | error err => rw [hl] at h; exact absurd h (by simp)
          | ok fes0 =>
              rw [hl] at h
              injection h with h
              subst h
              obtain ⟨f, _, _, hfe⟩ := hashEntry_ok he
              simp [ih hl, hfe]

theorem hashLoop_error_of_mem :
    ∀ {l : List (String × Node)} {e : String × Node}, e ∈ l →
      nodeUnreadable e.2 = true → ∃ err, hashLoop l = .error err := by
  intro l
  induction l with
  | nil => intro e he _; simp at he
  | cons e0 es ih =>
      intro e he hu
      rcases List.mem_cons.mp he with rfl | he'
      · obtain ⟨err, herr⟩ := hashEntry_error hu
        exact ⟨err, by simp [hashLoop, herr]⟩
      · cases he0 : hashEntry e0 with
        | error err => exact ⟨err, by simp [hashLoop, he0]⟩
        | ok fe =>
            obtain ⟨err, herr⟩ := ih he' hu
            exact ⟨err, by simp [hashLoop, he0, herr]⟩

/-! ## Facts about the sort and the glob -/

theorem sortPaths_perm (l : List (String × Node)) : List.Perm (sortPaths l) l :=
  List.perm_insertionSort pyPathRel l

theorem sortPaths_pairwise (l : List (String × Node)) :
    (sortPaths l).Pairwise pyPathRel :=
  List.sorted_insertionSort pyPathRel l

theorem sortedMatches_perm (d : Dir) : List.Perm (sortedMatches d) (globParquet d) :=
  sortPaths_perm (globParquet d)

theorem mem_glob_iff {d : Dir} {e : String × Node} :
    e ∈ globParquet d ↔ e ∈ d ∧ matchesGlobParquet e.1 = true := by
  simp only [globParquet, List.mem_filter]

theorem mem_dir_of_mem_sortedMatches {d : Dir} {e : String × Node}
    (h : e ∈ sortedMatches d) : e ∈ d :=
  (mem_glob_iff.mp ((sortedMatches_perm d).mem_iff.mp h)).1

theorem matches_of_mem_sortedMatches {d : Dir} {e : String × Node}
    (h : e ∈ sortedMatches d) : matchesGlobParquet e.1 = true :=
  (mem_glob_iff.mp ((sortedMatches_perm d).mem_iff.mp h)).2

/-! ## Facts about the final write -/

theorem matchesGlobParquet_manifest : matchesGlobParquet "manifest.json" = false := by decide

theorem filter_matches_map_write (es : List (String × Node)) (x : Node) {nm : String}
    (h : matchesGlobParquet nm = false) :
    (es.map (fun e => if e.1 = nm then (e.1, x) else e)).filter
        (fun e => matchesGlobParquet e.1) =
      es.filter (fun e => matchesGlobParquet e.1) := by
  induction es with
  | nil => rfl
  | cons e es ih =>
      by_cases he : e.1 = nm
      · have hm : matchesGlobParquet e.1 = false := he ▸ h
        simp [List.filter_cons, he, hm, h, ih]
      · simp only [List.map_cons, if_neg he, List.filter_cons]
        cases hm : matchesGlobParquet e.1 <;> simp [hm, ih]

theorem globParquet_writeEntry (d : Dir) (c : List Nat) {nm : String}
    (h : matchesGlobParquet nm = false) :
    globParquet (writeEntry d nm c) = globParquet d := by
  unfold writeEntry globParquet
  split
  · exact filter_matches_map_write d _ h
  · simp [List.filter_append, h]

theorem sortedMatches_writeEntry (d : Dir) (c : List Nat) {nm : String}
    (h : matchesGlobParquet nm = false) :
    sortedMatches (writeEntry d nm c) = sortedMatches d := by
  unfold sortedMatches
  rw [globParquet_writeEntry d c h]

theorem lookupNode_map_write_self (es : List (String × Node)) (x : Node) (nm : String)
    (hany : hasEntry es nm = true) :
    lookupNode (es.map (fun e => if e.1 = nm then (e.1, x) else e)) nm = some x := by
  induction es with
  | nil => simp [hasEntry] at hany
  | cons e es ih =>
      by_cases he : e.1 = nm
      · simp [lookupNode, he]
      · simp only [hasEntry, if_neg he] at hany
        simp [lookupNode, if_neg he, ih hany]

theorem lookupNode_append_not_found (d : Dir) (e0 : String × Node)
    (hany : hasEntry d e0.1 = false) :
    lookupNode (d ++ [e0]) e0.1 = some e0.2 := by
  induction d with
  | nil => simp [lookupNode]
  | cons e es ih =>
      by_cases he : e.1 = e0.1
      · simp [hasEntry, he] at hany
      · simp only [hasEntry, if_neg he] at hany
        simp [lookupNode, if_neg he, ih hany]

theorem lookupNode_writeEntry_self (d : Dir) (nm : String) (c : List Nat) :
    lookupNode (writeEntry d nm c) nm = some (Node.file ⟨c, c.length, true⟩) := by
  unfold writeEntry
  split
  case isTrue hany => exact lookupNode_map_write_self d _ nm hany
  case isFalse hany =>
      exact lookupNode_append_not_found d (nm, Node.file ⟨c, c.length, true⟩)
        (by simpa using hany)

theorem lookupNode_map_write_ne (es : List (String × Node)) (x : Node) (nm : String)
    {nm' : String} (h : nm' ≠ nm) :
    lookupNode (es.map (fun e => if e.1 = nm then (e.1, x) else e)) nm' =
      lookupNode es nm' := by
  induction es with
  | nil => rfl
  | cons e es ih =>
      by_cases he : e.1 = nm
      · have hne : ¬ nm = nm' := fun hx => h hx.symm
        simp [lookupNode, he, hne, ih]
      · simp only [List.map_cons, if_neg he, lookupNode]
        by_cases hb : e.1 = nm' <;> simp [hb, ih]

theorem lookupNode_append_ne (d : Dir) (e0 : String × Node) {nm' : String}
    (h : nm' ≠ e0.1) :
    lookupNode (d ++ [e0]) nm' = lookupNode d nm' := by
  induction d with
  | nil =>
      have hne : ¬ e0.1 = nm' := fun hx => h hx.symm
      simp [lookupNode, hne]
  | cons e es ih =>
      by_cases hb : e.1 = nm' <;> simp [lookupNode, hb, ih]

theorem lookupNode_writeEntry_ne (d : Dir) (nm : String) (c : List Nat) {nm' : String}
    (h : nm' ≠ nm) :
    lookupNode (writeEntry d nm c) nm' = lookupNode d nm' := by
  unfold writeEntry
  split
  · exact lookupNode_map_write_ne d _ nm h
  · exact lookupNode_append_ne d _ h

/-! ## Unfolding the builder -/

theorem createManifest_some_ok {d : Dir} {fes : List FileEntry}
    (h : hashLoop (sortedMatches d) = .ok fes)
    (odir : String) (stats : Stats) (now : PyDatetime) :
    createManifest odir (some d) stats now =
      .ok (⟨MANIFEST_SCHEMA_VERSION, isoformatUTC now, "0.1.0", stats, fes⟩,
           writeEntry d "manifest.json"
             (strBytes (pyJsonDumpsManifest
               ⟨MANIFEST_SCHEMA_VERSION, isoformatUTC now, "0.1.0", stats, fes⟩)),
           odir ++ "/manifest.json") := by
  simp [createManifest, h]

theorem createManifest_some_err {d : Dir} {err : PyErr}
    (h : hashLoop (sortedMatches d) = .error err)
    (odir : String) (stats : Stats) (now : PyDatetime) :
    createManifest odir (some d) stats now = .error err := by
  simp [createManifest, h]

theorem isOk_some_elim {odir : String} {d : Dir} {stats : Stats} {now : PyDatetime}
    (h : isOkB (createManifest odir (some d) stats now) = true) :
    ∃ fes, hashLoop (sortedMatches d) = .ok fes := by
  cases hh : hashLoop (sortedMatches d) with
  | ok fes => exact ⟨fes, rfl⟩
  | error err =>
      rw [createManifest_some_err hh] at h
      simp [isOkB] at h

theorem manifestOf_some_ok {d : Dir} {fes : List FileEntry}
    (h : hashLoop (sortedMatches d) = .ok fes)
    (odir : String) (stats : Stats) (now : PyDatetime) :
    manifestOf (createManifest odir (some d) stats now) =
      ⟨MANIFEST_SCHEMA_VERSION, isoformatUTC now, "0.1.0", stats, fes⟩ := by
  rw [createManifest_some_ok h]; rfl

theorem filesList_some_ok {d : Dir} {fes : List FileEntry}
    (h : hashLoop (sortedMatches d) = .ok fes)
    (odir : String) (stats : Stats) (now : PyDatetime) :
    filesList (createManifest odir (some d) stats now) = fes := by
  rw [filesList, manifestOf_some_ok h]

theorem dirOf_some_ok {d : Dir} {fes : List FileEntry}
    (h : hashLoop (sortedMatches d) = .ok fes)
    (odir : String) (stats : Stats) (now : PyDatetime) :
    dirOf (createManifest odir (some d) stats now) =
      writeEntry d "manifest.json"
        (strBytes (pyJsonDumpsManifest
          ⟨MANIFEST_SCHEMA_VERSION, isoformatUTC now, "0.1.0", stats, fes⟩)) := by
  rw [createManifest_some_ok h]; rfl

theorem pathOf_some_ok {d : Dir} {fes : List FileEntry}
    (h : hashLoop (sortedMatches d) = .ok fes)
    (odir : String) (stats : Stats) (now : PyDatetime) :
    pathOf (createManifest odir (some d) stats now) = odir ++ "/manifest.json" := by
  rw [createManifest_some_ok h]; rfl

/-! ## Concrete fixtures for the witnesses -/

/-- A fixed timestamp for concrete runs. -/
def demoT : PyDatetime := ⟨2026, 10, 12, 3, 4, 5, 678901⟩

/-- A later timestamp for the re-run. -/
def demoT2 : PyDatetime := ⟨2026, 10, 12, 3, 4, 6, 0⟩

/-- The spec's scenario directory: `a.parquet` holding the eight bytes of
`"AAAAAAAA"` and empty `b.parquet`, listed here in reversed name order so the
sort is exercised. -/
def demoDir : Dir :=
  [("b.parquet", .file ⟨[], 0, true⟩),
   ("a.parquet", .file ⟨List.replicate 8 65, 8, true⟩)]

/-- The spec's scenario stats. -/
def demoStats : Stats := [("cves", .jnum 42)]

/-- A directory whose only data file is unreadable. -/
def demoBadDir : Dir := [("a.parquet", .file ⟨[1, 2], 2, false⟩)]

/-- A directory with no matching data files. -/
def demoEmptyDir : Dir := [("readme.txt", .file ⟨[10], 1, true⟩)]

end CvecDb

namespace CvecDb

/-! ## The claims -/

/-- **C1**: every `FileEntry` that `create_manifest` records comes from a
readable file of the directory; its `sha256` is the digest the 8192-byte
streaming loop produces, which equals the standard SHA-256 digest of the
file's exact bytes, rendered as a 64-character string over the lowercase
hexadecimal alphabet; and its `size` is the file's `stat` size (filesystem
metadata), not a count of hashed bytes. -/
theorem create_manifest_entry_digest_and_size (odir : String) (d : Dir) (stats : Stats)
    (now : PyDatetime) (fe : FileEntry)
    (hfe : fe ∈ filesList (createManifest odir (some d) stats now)) :
    ∃ f : FileNode, (fe.name, Node.file f) ∈ d ∧ f.readable = true ∧
      fe.sha256 = hashlibDigestOfUpdates (readChunks8192 f.content) ∧
      fe.sha256 = sha256hex f.content ∧
      fe.size = f.statSize ∧
      fe.sha256.length = 64 ∧
      ∀ c ∈ fe.sha256.data, c ∈ hexChars := by
  cases hh : hashLoop (sortedMatches d) with
  | error err =>
      simp only [filesList] at hfe
      rw [createManifest_some_err hh] at hfe
      simp [manifestOf] at hfe
  | ok fes =>
      rw [filesList_some_ok hh] at hfe
      obtain ⟨e, he, hok⟩ := hashLoop_ok_mem hh fe hfe
      obtain ⟨f, he2, hr, hfeeq⟩ := hashEntry_ok hok
      have hname : fe.name = e.1 := by rw [hfeeq]
      have hstream : fe.sha256 = hashlibDigestOfUpdates (readChunks8192 f.content) := by
        rw [hfeeq]
      have hdirect : fe.sha256 = sha256hex f.content := by
        rw [hstream, streamed_digest_eq]
      refine ⟨f, ?_, hr, hstream, hdirect, by rw [hfeeq], ?_, ?_⟩
      · have : (fe.name, Node.file f) = e := by
          rw [hname, ← he2]
        rw [this]
        exact mem_dir_of_mem_sortedMatches he
      · rw [hdirect]; exact sha256hex_length f.content
      · rw [hdirect]; exact sha256hex_chars f.content

set_option maxRecDepth 1000000 in
/-- Witness for C1 at a concrete directory: the `a.parquet` entry of the
scenario directory is recorded, so the theorem applies to it. -/
theorem create_manifest_entry_digest_and_size_witness :
    ((⟨"a.parquet", 8, "c34ab6abb7b2bb595bc25c3b388c872fd1d575819a8f55cc689510285e212385"⟩ :
        FileEntry) ∈ filesList (createManifest "out" (some demoDir) demoStats demoT)) ∧
    (∃ f : FileNode,
      ((⟨"a.parquet", 8, "c34ab6abb7b2bb595bc25c3b388c872fd1d575819a8f55cc689510285e212385"⟩ :
          FileEntry).name, Node.file f) ∈ demoDir ∧ f.readable = true ∧
      (⟨"a.parquet", 8, "c34ab6abb7b2bb595bc25c3b388c872fd1d575819a8f55cc689510285e212385"⟩ :
          FileEntry).sha256 = hashlibDigestOfUpdates (readChunks8192 f.content) ∧
      (⟨"a.parquet", 8, "c34ab6abb7b2bb595bc25c3b388c872fd1d575819a8f55cc689510285e212385"⟩ :
          FileEntry).sha256 = sha256hex f.content ∧
      (⟨"a.parquet", 8, "c34ab6abb7b2bb595bc25c3b388c872fd1d575819a8f55cc689510285e212385"⟩ :
          FileEntry).size = f.statSize ∧
      (⟨"a.parquet", 8, "c34ab6abb7b2bb595bc25c3b388c872fd1d575819a8f55cc689510285e212385"⟩ :
          FileEntry).sha256.length = 64 ∧
      ∀ c ∈ (⟨"a.parquet", 8, "c34ab6abb7b2bb595bc25c3b388c872fd1d575819a8f55cc689510285e212385"⟩ :
          FileEntry).sha256.data, c ∈ hexChars) :=
  ⟨by decide, create_manifest_entry_digest_and_size "out" demoDir demoStats demoT _ (by decide)⟩


set_option maxRecDepth 1000000 in
/-- **C2**: on any successful run over a directory with unique entry names,
the `files` array has exactly one entry per matched data file, its names are
in ascending code-point order with no duplicates; and on the spec's scenario
directory (`a.parquet` = 8 bytes of `"AAAAAAAA"`, `b.parquet` empty) the
array is exactly the two entries in that order with sizes 8 and 0 and the
SHA-256 digests of `"AAAAAAAA"` and of the empty input. -/
theorem create_manifest_files_sorted_scenario :
    (∀ (odir : String) (d : Dir) (stats : Stats) (now : PyDatetime),
      (d.map Prod.fst).Nodup →
      isOkB (createManifest odir (some d) stats now) = true →
      (filesList (createManifest odir (some d) stats now)).length = (globParquet d).length ∧
      ((filesList (createManifest odir (some d) stats now)).map FileEntry.name).Pairwise
        (fun a b => pyStrLe a b = true) ∧
      ((filesList (createManifest odir (some d) stats now)).map FileEntry.name).Nodup) ∧
    filesList (createManifest "out" (some demoDir) demoStats demoT) =
      [⟨"a.parquet", 8, "c34ab6abb7b2bb595bc25c3b388c872fd1d575819a8f55cc689510285e212385"⟩,
       ⟨"b.parquet", 0, "e3b0c44298fc1c149afbf4c8996fb92427ae41e4649b934ca495991b7852b855"⟩] := by
  constructor
  · intro odir d stats now hnodup hok
    obtain ⟨fes, hh⟩ := isOk_some_elim hok
    rw [filesList_some_ok hh]
    have hnames : fes.map FileEntry.name = (sortedMatches d).map Prod.fst :=
      hashLoop_ok_names hh
    refine ⟨?_, ?_, ?_⟩
    · have hlen := congrArg List.length hnames
      simp only [List.length_map] at hlen
      rw [hlen, (sortedMatches_perm d).length_eq]
    · rw [hnames]
      exact (sortPaths_pairwise (globParquet d)).map Prod.fst (fun a b h => h)
    · rw [hnames]
      have h1 : ((globParquet d).map Prod.fst).Nodup :=
        List.Nodup.sublist (List.Sublist.map Prod.fst (List.filter_sublist d)) hnodup
      exact (List.Perm.nodup_iff ((sortedMatches_perm d).map Prod.fst)).mpr h1
  · rfl

set_option maxRecDepth 1000000 in
/-- Witness for C2's universally quantified part at the scenario directory. -/
theorem create_manifest_files_sorted_scenario_witness :
    ((demoDir.map Prod.fst).Nodup ∧
      isOkB (createManifest "out" (some demoDir) demoStats demoT) = true) ∧
    ((filesList (createManifest "out" (some demoDir) demoStats demoT)).length =
        (globParquet demoDir).length ∧
      ((filesList (createManifest "out" (some demoDir) demoStats demoT)).map
          FileEntry.name).Pairwise (fun a b => pyStrLe a b = true) ∧
      ((filesList (createManifest "out" (some demoDir) demoStats demoT)).map
          FileEntry.name).Nodup) :=
  ⟨⟨by decide, by rfl⟩,
   create_manifest_files_sorted_scenario.1 "out" demoDir demoStats demoT (by decide) (by rfl)⟩


/-- **C3**: when `output_dir` does not exist, manifest generation fails with
a not-found error naming the path and writes nothing; and the `manifest`
subcommand exits with status 1, prints an error message containing the
directory path, and never reaches `create_manifest`. -/
theorem create_manifest_missing_dir_fails (odir : String) (stats : Stats)
    (now : PyDatetime) (cnt : Nat) :
    createManifest odir none stats now =
        .error (.fileNotFound (odir ++ "/manifest.json")) ∧
    finalFs odir none stats now = none ∧
    (manifestCmd odir none cnt now).exitCode = 1 ∧
    (∃ pre post, (manifestCmd odir none cnt now).errMessages = [pre ++ odir ++ post]) ∧
    (manifestCmd odir none cnt now).calledCreateManifest = false := by
  refine ⟨rfl, ?_, rfl, ⟨"Error: Directory ", " does not exist", rfl⟩, rfl⟩
  rw [finalFs]
  rfl

/-- **C4**: if any matched data file is unreadable (or a matched entry is a
subdirectory, so opening it fails), `create_manifest` raises and the
directory is left untouched — in particular a pre-existing `manifest.json`
keeps its previous node, and no manifest is written. -/
theorem create_manifest_unreadable_aborts (odir : String) (d : Dir) (stats : Stats)
    (now : PyDatetime)
    (h : ∃ e ∈ globParquet d, nodeUnreadable e.2 = true) :
    (∃ err, createManifest odir (some d) stats now = .error err) ∧
    finalFs odir (some d) stats now = some d := by
  obtain ⟨e, he, hu⟩ := h
  have he' : e ∈ sortedMatches d := (sortedMatches_perm d).mem_iff.mpr he
  obtain ⟨err, herr⟩ := hashLoop_error_of_mem he' hu
  have hcm := createManifest_some_err herr odir stats now
  exact ⟨⟨err, hcm⟩, by rw [finalFs, hcm]⟩

/-- Witness for C4: a directory whose only data file is unreadable. -/
theorem create_manifest_unreadable_aborts_witness :
    (∃ e ∈ globParquet demoBadDir, nodeUnreadable e.2 = true) ∧
    (∃ err, createManifest "out" (some demoBadDir) demoStats demoT = .error err) ∧
    finalFs "out" (some demoBadDir) demoStats demoT = some demoBadDir :=
  ⟨⟨("a.parquet", .file ⟨[1, 2], 2, false⟩), List.mem_cons_self _ _, rfl⟩,
   create_manifest_unreadable_aborts "out" demoBadDir demoStats demoT
     ⟨("a.parquet", .file ⟨[1, 2], 2, false⟩), List.mem_cons_self _ _, rfl⟩⟩

/-- **C5**: re-running `create_manifest` on the directory produced by a
successful run (whose data files are unchanged — only `manifest.json` was
written) succeeds with the same `files` entries, while each run's
`generated_at` is the ISO rendering of its own clock reading, so distinct
readings give distinct timestamps. -/
theorem create_manifest_rerun_idempotent (odir : String) (d : Dir)
    (stats1 stats2 : Stats) (t1 t2 : PyDatetime)
    (h : isOkB (createManifest odir (some d) stats1 t1) = true) :
    isOkB (createManifest odir
        (some (dirOf (createManifest odir (some d) stats1 t1))) stats2 t2) = true ∧
    filesList (createManifest odir
        (some (dirOf (createManifest odir (some d) stats1 t1))) stats2 t2) =
      filesList (createManifest odir (some d) stats1 t1) ∧
    (manifestOf (createManifest odir (some d) stats1 t1)).generated_at =
      isoformatUTC t1 ∧
    (manifestOf (createManifest odir
        (some (dirOf (createManifest odir (some d) stats1 t1))) stats2 t2)).generated_at =
      isoformatUTC t2 ∧
    (isoformatUTC t1 ≠ isoformatUTC t2 →
      (manifestOf (createManifest odir (some d) stats1 t1)).generated_at ≠
        (manifestOf (createManifest odir
          (some (dirOf (createManifest odir (some d) stats1 t1))) stats2 t2)).generated_at) := by
  obtain ⟨fes, hh⟩ := isOk_some_elim h
  have hdir := dirOf_some_ok hh odir stats1 t1
  have hmatches : sortedMatches (dirOf (createManifest odir (some d) stats1 t1)) =
      sortedMatches d := by
    rw [hdir]
    exact sortedMatches_writeEntry d _ matchesGlobParquet_manifest
  have hh2 : hashLoop (sortedMatches (dirOf (createManifest odir (some d) stats1 t1))) =
      .ok fes := by rw [hmatches]; exact hh
  refine ⟨?_, ?_, ?_, ?_, ?_⟩
  · rw [createManifest_some_ok hh2]; rfl
  · rw [filesList_some_ok hh2, filesList_some_ok hh]
  · rw [manifestOf_some_ok hh]
  · rw [manifestOf_some_ok hh2]
  · intro hne
    rw [manifestOf_some_ok hh, manifestOf_some_ok hh2]
    exact hne

set_option maxRecDepth 1000000 in
/-- Witness for C5 at the scenario directory and two clock readings. -/
theorem create_manifest_rerun_idempotent_witness :
    isOkB (createManifest "out" (some demoDir) demoStats demoT) = true ∧
    (isOkB (createManifest "out"
        (some (dirOf (createManifest "out" (some demoDir) demoStats demoT))) demoStats demoT2) = true ∧
    filesList (createManifest "out"
        (some (dirOf (createManifest "out" (some demoDir) demoStats demoT))) demoStats demoT2) =
      filesList (createManifest "out" (some demoDir) demoStats demoT) ∧
    (manifestOf (createManifest "out" (some demoDir) demoStats demoT)).generated_at =
      isoformatUTC demoT ∧
    (manifestOf (createManifest "out"
        (some (dirOf (createManifest "out" (some demoDir) demoStats demoT))) demoStats demoT2)).generated_at =
      isoformatUTC demoT2 ∧
    (isoformatUTC demoT ≠ isoformatUTC demoT2 →
      (manifestOf (createManifest "out" (some demoDir) demoStats demoT)).generated_at ≠
        (manifestOf (createManifest "out"
          (some (dirOf (createManifest "out" (some demoDir) demoStats demoT))) demoStats demoT2)).generated_at)) :=
  ⟨by rfl,
   create_manifest_rerun_idempotent "out" demoDir demoStats demoStats demoT demoT2 (by rfl)⟩


/-- **C6**: a successful call returns the path `output_dir/manifest.json`
and writes there (replacing any previous entry) the `indent=2` JSON
serialization of a record whose top-level keys are exactly
`schema_version`, `generated_at`, `cvec_db_version`, `stats`, `files` in
that fixed order, with the fixed schema-version constant, the fixed tool
version string, and the current UTC time in ISO-8601 form carrying the
`+00:00` timezone designator. -/
theorem create_manifest_writes_manifest_json (odir : String) (d : Dir) (stats : Stats)
    (now : PyDatetime)
    (h : isOkB (createManifest odir (some d) stats now) = true) :
    pathOf (createManifest odir (some d) stats now) = odir ++ "/manifest.json" ∧
    (manifestOf (createManifest odir (some d) stats now)).schema_version =
      MANIFEST_SCHEMA_VERSION ∧
    (manifestOf (createManifest odir (some d) stats now)).cvec_db_version = "0.1.0" ∧
    (manifestOf (createManifest odir (some d) stats now)).generated_at =
      isoformatUTC now ∧
    (∃ s, (manifestOf (createManifest odir (some d) stats now)).generated_at =
      s ++ "+00:00") ∧
    (manifestKVs (manifestOf (createManifest odir (some d) stats now))).map Prod.fst =
      ["schema_version", "generated_at", "cvec_db_version", "stats", "files"] ∧
    lookupNode (dirOf (createManifest odir (some d) stats now)) "manifest.json" =
      some (Node.file
        ⟨strBytes (pyJsonDumpsManifest (manifestOf (createManifest odir (some d) stats now))),
         (strBytes (pyJsonDumpsManifest
            (manifestOf (createManifest odir (some d) stats now)))).length,
         true⟩) := by
  obtain ⟨fes, hh⟩ := isOk_some_elim h
  refine ⟨pathOf_some_ok hh odir stats now, ?_, ?_, ?_, ?_, ?_, ?_⟩
  · rw [manifestOf_some_ok hh]
  · rw [manifestOf_some_ok hh]
  · rw [manifestOf_some_ok hh]
  · rw [manifestOf_some_ok hh]
    exact ⟨isoCore now, rfl⟩
  · rw [manifestOf_some_ok hh]
    rfl
  · rw [dirOf_some_ok hh, manifestOf_some_ok hh]
    exact lookupNode_writeEntry_self d "manifest.json" _

set_option maxRecDepth 1000000 in
/-- Witness for C6 at the scenario directory. -/
theorem create_manifest_writes_manifest_json_witness :
    isOkB (createManifest "out" (some demoDir) demoStats demoT) = true ∧
    (pathOf (createManifest "out" (some demoDir) demoStats demoT) = "out" ++ "/manifest.json" ∧
    (manifestOf (createManifest "out" (some demoDir) demoStats demoT)).schema_version =
      MANIFEST_SCHEMA_VERSION ∧
    (manifestOf (createManifest "out" (some demoDir) demoStats demoT)).cvec_db_version = "0.1.0" ∧
    (manifestOf (createManifest "out" (some demoDir) demoStats demoT)).generated_at =
      isoformatUTC demoT ∧
    (∃ s, (manifestOf (createManifest "out" (some demoDir) demoStats demoT)).generated_at =
      s ++ "+00:00") ∧
    (manifestKVs (manifestOf (createManifest "out" (some demoDir) demoStats demoT))).map Prod.fst =
      ["schema_version", "generated_at", "cvec_db_version", "stats", "files"] ∧
    lookupNode (dirOf (createManifest "out" (some demoDir) demoStats demoT)) "manifest.json" =
      some (Node.file
        ⟨strBytes (pyJsonDumpsManifest (manifestOf (createManifest "out" (some demoDir) demoStats demoT))),
         (strBytes (pyJsonDumpsManifest
            (manifestOf (createManifest "out" (some demoDir) demoStats demoT)))).length,
         true⟩)) :=
  ⟨by rfl, create_manifest_writes_manifest_json "out" demoDir demoStats demoT (by rfl)⟩

set_option maxRecDepth 1000000 in
/-- **C7**: the `stats` mapping is passed through verbatim into the
manifest's `stats` field; in particular `{"cves": 42}` appears unmodified. -/
theorem create_manifest_stats_passthrough :
    (∀ (odir : String) (d : Dir) (stats : Stats) (now : PyDatetime),
      isOkB (createManifest odir (some d) stats now) = true →
      (manifestOf (createManifest odir (some d) stats now)).stats = stats) ∧
    (manifestOf (createManifest "out" (some demoDir) demoStats demoT)).stats =
      [("cves", JScalar.jnum 42)] := by
  constructor
  · intro odir d stats now h
    obtain ⟨fes, hh⟩ := isOk_some_elim h
    rw [manifestOf_some_ok hh]
  · rfl

set_option maxRecDepth 1000000 in
/-- Witness for C7's universally quantified part at the scenario. -/
theorem create_manifest_stats_passthrough_witness :
    isOkB (createManifest "out" (some demoDir) demoStats demoT) = true ∧
    (manifestOf (createManifest "out" (some demoDir) demoStats demoT)).stats = demoStats :=
  ⟨by rfl, create_manifest_stats_passthrough.1 "out" demoDir demoStats demoT (by rfl)⟩

/-- **C8**: on an existing directory with no matching data files,
`create_manifest` succeeds and the manifest's `files` field is empty. -/
theorem create_manifest_empty_dir (odir : String) (d : Dir) (stats : Stats)
    (now : PyDatetime) (h : globParquet d = []) :
    isOkB (createManifest odir (some d) stats now) = true ∧
    filesList (createManifest odir (some d) stats now) = [] := by
  have hh : hashLoop (sortedMatches d) = .ok [] := by
    unfold sortedMatches
    rw [h]
    rfl
  exact ⟨by rw [createManifest_some_ok hh]; rfl, filesList_some_ok hh odir stats now⟩

/-- Witness for C8: a directory holding only a non-matching file. -/
theorem create_manifest_empty_dir_witness :
    globParquet demoEmptyDir = [] ∧
    isOkB (createManifest "out" (some demoEmptyDir) demoStats demoT) = true ∧
    filesList (createManifest "out" (some demoEmptyDir) demoStats demoT) = [] :=
  ⟨rfl, create_manifest_empty_dir "out" demoEmptyDir demoStats demoT rfl⟩

/-- **C9**: a successful call creates or overwrites exactly the one entry
`manifest.json`; every other entry of the directory — in particular every
scanned data file — resolves to the same node as before the call. -/
theorem create_manifest_frame (odir : String) (d : Dir) (stats : Stats)
    (now : PyDatetime)
    (h : isOkB (createManifest odir (some d) stats now) = true) :
    (∃ bytes, lookupNode (dirOf (createManifest odir (some d) stats now)) "manifest.json" =
        some (Node.file ⟨bytes, bytes.length, true⟩)) ∧
    ∀ nm, nm ≠ "manifest.json" →
      lookupNode (dirOf (createManifest odir (some d) stats now)) nm = lookupNode d nm := by
  obtain ⟨fes, hh⟩ := isOk_some_elim h
  rw [dirOf_some_ok hh]
  exact ⟨⟨_, lookupNode_writeEntry_self d "manifest.json" _⟩,
         fun nm hnm => lookupNode_writeEntry_ne d "manifest.json" _ hnm⟩

set_option maxRecDepth 1000000 in
/-- Witness for C9 at the scenario directory. -/
theorem create_manifest_frame_witness :
    isOkB (createManifest "out" (some demoDir) demoStats demoT) = true ∧
    ((∃ bytes, lookupNode (dirOf (createManifest "out" (some demoDir) demoStats demoT)) "manifest.json" =
        some (Node.file ⟨bytes, bytes.length, true⟩)) ∧
    ∀ nm, nm ≠ "manifest.json" →
      lookupNode (dirOf (createManifest "out" (some demoDir) demoStats demoT)) nm =
        lookupNode demoDir nm) :=
  ⟨by rfl, create_manifest_frame "out" demoDir demoStats demoT (by rfl)⟩

/-- **C10**: file selection is exactly the non-recursive glob: on success,
the recorded names are a permutation of the names of the directory's
immediate entries ending in `.parquet`; every recorded name belongs to an
immediate entry of the directory, ends in `.parquet`, and is never
`manifest.json` — a manifest left by a previous run is never catalogued. -/
theorem create_manifest_selection (odir : String) (d : Dir) (stats : Stats)
    (now : PyDatetime)
    (h : isOkB (createManifest odir (some d) stats now) = true) :
    List.Perm ((filesList (createManifest odir (some d) stats now)).map FileEntry.name)
      ((globParquet d).map Prod.fst) ∧
    ∀ fe ∈ filesList (createManifest odir (some d) stats now),
      (∃ nd, (fe.name, nd) ∈ d) ∧ matchesGlobParquet fe.name = true ∧
        fe.name ≠ "manifest.json" := by
  obtain ⟨fes, hh⟩ := isOk_some_elim h
  rw [filesList_some_ok hh]
  constructor
  · rw [hashLoop_ok_names hh]
    exact (sortedMatches_perm d).map Prod.fst
  · intro fe hfe
    obtain ⟨e, he, hok⟩ := hashLoop_ok_mem hh fe hfe
    obtain ⟨f, he2, hr, hfeeq⟩ := hashEntry_ok hok
    have hname : fe.name = e.1 := by rw [hfeeq]
    have hm : matchesGlobParquet fe.name = true := by
      rw [hname]
      exact matches_of_mem_sortedMatches he
    refine ⟨⟨e.2, ?_⟩, hm, ?_⟩
    · have hpe : (fe.name, e.2) = e := by rw [hname]
      rw [hpe]
      exact mem_dir_of_mem_sortedMatches he
    · intro hcontra
      rw [hcontra, matchesGlobParquet_manifest] at hm
      exact Bool.false_ne_true hm

set_option maxRecDepth 1000000 in
/-- Witness for C10 at the scenario directory. -/
theorem create_manifest_selection_witness :
    isOkB (createManifest "out" (some demoDir) demoStats demoT) = true ∧
    (List.Perm ((filesList (createManifest "out" (some demoDir) demoStats demoT)).map FileEntry.name)
      ((globParquet demoDir).map Prod.fst) ∧
    ∀ fe ∈ filesList (createManifest "out" (some demoDir) demoStats demoT),
      (∃ nd, (fe.name, nd) ∈ demoDir) ∧ matchesGlobParquet fe.name = true ∧
        fe.name ≠ "manifest.json") :=
  ⟨by rfl, create_manifest_selection "out" demoDir demoStats demoT (by rfl)⟩

end CvecDb
